import Mathlib

/-!
Shallow embedding of the color-guessing core of `src/src/App.tsx`
(functions `makeHSV`, `makeHSVEasy`, `makeHSVMedium`, `makeHSVHard`,
`next`, `initSession`, `makeRound`, and the event handlers `doCheck`
and `doNext` of the `App` component), together with theorems settling
the specification claims.

Modelling conventions:
* JavaScript numbers flowing through the seed pipeline are modelled as
  naturals.  JS bitwise operators (`&`, `^`, `>>`) coerce their operands
  to 32-bit integers; for the values arising here the resulting bit
  pattern is exactly the natural number taken modulo 2^32, so `next`
  reduces its product modulo 2^32 before the XOR (the XOR result is then
  itself < 2^32).  The (two's-complement) sign of the JS value is not
  observable by any of the operations modelled.
* HSV arithmetic is modelled over `ℚ`.  Every constant the source
  divides by a power of two (360/64, 100/16, 100/8, 100/4, 360/16) is an
  exact binary64 value, so on the paths the claims inspect the rational
  and floating-point results coincide; range claims have margins far
  exceeding any rounding of the remaining divisions.
* The JS remainder operator `%` is applied in the source only to
  non-negative dividends with positive divisor, where it agrees with the
  floor-based `fmod` below.
-/

namespace Clrgsr

/-- JS `%` on a non-negative dividend and positive divisor:
`a - b * floor (a / b)`. -/
def fmod (a b : ℚ) : ℚ := a - b * ((⌊a / b⌋ : ℤ) : ℚ)

/-- `GuesserDifficulty` from App.tsx lines 4-8. -/
inductive GuesserDifficulty
  | Easy
  | Medium
  | Hard
deriving DecidableEq, Repr

/-- `makeHSVEasy` (App.tsx lines 36-43).  The source writes each mask as
`seed & (0xff00 >> 8)` etc.: the shift applies to the mask constant, not
to the seed. -/
def makeHSVEasy (seed : ℕ) : ℚ × ℚ × ℚ :=
  let hue0 : ℚ := ((seed &&& (0xff00 >>> 8) : ℕ) : ℚ) / 6
  let hue : ℚ := fmod ((360 / 6) * hue0) 360
  let val : ℚ := (100 / 4) * (((seed &&& (0xf0 >>> 4) : ℕ) : ℚ) / 4)
  let sat : ℚ := (100 / 4) * (((seed &&& 0xf : ℕ) : ℚ) / 4)
  (hue, val, sat)

/-- `makeHSVMedium` (App.tsx lines 45-51). -/
def makeHSVMedium (seed : ℕ) : ℚ × ℚ × ℚ :=
  let hue : ℚ := fmod ((360 / 16) * ((seed &&& (0xff00 >>> 8) : ℕ) : ℚ) / 16) 360
  let val : ℚ := (100 / 8) * (((seed &&& (0xf0 >>> 4) : ℕ) : ℚ) / 2)
  let sat : ℚ := (100 / 8) * (((seed &&& 0xf : ℕ) : ℚ) / 2)
  (hue, val, sat)

/-- `makeHSVHard` (App.tsx lines 53-59). -/
def makeHSVHard (seed : ℕ) : ℚ × ℚ × ℚ :=
  let hue : ℚ := fmod ((360 / 64) * ((seed &&& (0x7f00 >>> 8) : ℕ) : ℚ)) 360
  let val : ℚ := (100 / 16) * ((seed &&& (0xf0 >>> 4) : ℕ) : ℚ)
  let sat : ℚ := (100 / 16) * ((seed &&& 0xf : ℕ) : ℚ)
  (hue, val, sat)

/-- `makeHSV` (App.tsx lines 22-34); the triple is returned in the
source order `[hue, val, sat]`. -/
def makeHSV (difficulty : GuesserDifficulty) (seed : ℕ) : ℚ × ℚ × ℚ :=
  match difficulty with
  | .Easy => makeHSVEasy seed
  | .Medium => makeHSVMedium seed
  | .Hard => makeHSVHard seed

/-- `TWIST` (App.tsx line 61). -/
def TWIST : List ℕ := [32771, 16411, 14009, 11003]

/-- `next` (App.tsx lines 63-66): `(seed * 65521) ^ TWIST[seed & 0x3]`,
with the JS `ToInt32` coercion of the product rendered as reduction
modulo 2^32.  The index `seed &&& 0x3` is always < 4, so the `getD`
default is never taken.  Note: the source applies no 16-bit mask to the
result. -/
def next (seed : ℕ) : ℕ :=
  ((seed * 65521) % 4294967296) ^^^ TWIST.getD (seed &&& 0x3) 0

/-- `GuesserSession` (App.tsx lines 68-73).  `guessed` and `score` are
JS numbers holding integers; they are modelled as `ℤ` so that
non-negativity is a provable invariant rather than a typing artifact. -/
structure GuesserSession where
  guessed : ℤ
  score : ℤ
  difficulty : GuesserDifficulty
  seed : ℕ
deriving DecidableEq, Repr

/-- `GuesserRound` (App.tsx lines 75-81). -/
structure GuesserRound where
  hue : ℚ
  saturation : ℚ
  value : ℚ
  checking : Bool
  seed : ℕ
deriving DecidableEq, Repr

/-- `initSession` (App.tsx lines 83-90); `Date.now()` is an input. -/
def initSession (now : ℕ) : GuesserSession :=
  { guessed := 0
    score := 0
    difficulty := .Easy
    seed := now &&& 0xffff }

/-- `makeRound` (App.tsx lines 92-104): destructure `makeHSV` in order
`[hue, saturation, value]`, then advance the seed. -/
def makeRound (difficulty : GuesserDifficulty) (seed : ℕ) : GuesserRound :=
  let t := makeHSV difficulty seed
  { hue := t.1
    saturation := t.2.1
    value := t.2.2
    seed := next seed
    checking := false }

/-- `doCheck` (App.tsx lines 128-137): bump `guessed`, bump `score` on
exact triple equality, set `checking`. -/
def doCheck (session : GuesserSession) (round : GuesserRound)
    (hue sat val : ℚ) : GuesserSession × GuesserRound :=
  let guessed := session.guessed + 1
  let score := session.score +
    (if hue = round.hue ∧ sat = round.saturation ∧ val = round.value
      then 1 else 0)
  ({ session with guessed := guessed, score := score },
   { round with checking := true })

/-- `doNext` (App.tsx lines 139-141): replace the round from the old
round's carried seed; the session is not written. -/
def doNext (session : GuesserSession) (round : GuesserRound) : GuesserRound :=
  makeRound session.difficulty round.seed

/-- A user action reaching the core: a guess submission or a
next-round request. -/
inductive AppEvent
  | check (hue sat val : ℚ)
  | nextRound

/-- One React state transition of `App`: `doCheck` updates both pieces
of state, `doNext` calls only `setRound`. -/
def step (st : GuesserSession × GuesserRound) : AppEvent → GuesserSession × GuesserRound
  | .check h s v => doCheck st.1 st.2 h s v
  | .nextRound => (st.1, doNext st.1 st.2)

/-- Initial React state (App.tsx lines 119-122): a fresh session and a
round made from its difficulty and seed. -/
def initState (now : ℕ) : GuesserSession × GuesserRound :=
  let s := initSession now
  (s, makeRound s.difficulty s.seed)

/-- States reachable by a sequence of user actions. -/
def runEvents (now : ℕ) (evs : List AppEvent) : GuesserSession × GuesserRound :=
  evs.foldl step (initState now)

/- ### Helper lemmas -/

lemma fmod_eq_mul_fract (a : ℚ) {b : ℚ} (hb : b ≠ 0) :
    fmod a b = b * Int.fract (a / b) := by
  unfold fmod Int.fract
  field_simp

lemma fmod_nonneg (a : ℚ) {b : ℚ} (hb : 0 < b) : 0 ≤ fmod a b := by
  rw [fmod_eq_mul_fract a hb.ne.symm]
  exact mul_nonneg hb.le (Int.fract_nonneg _)

lemma fmod_lt (a : ℚ) {b : ℚ} (hb : 0 < b) : fmod a b < b := by
  rw [fmod_eq_mul_fract a hb.ne.symm]
  calc b * Int.fract (a / b) < b * 1 :=
        (mul_lt_mul_left hb).2 (Int.fract_lt_one _)
    _ = b := mul_one b

lemma cast_and_le (s m : ℕ) : ((s &&& m : ℕ) : ℚ) ≤ (m : ℚ) := by
  exact_mod_cast Nat.and_le_right

lemma cast_and_nonneg (s m : ℕ) : (0 : ℚ) ≤ ((s &&& m : ℕ) : ℚ) := by
  exact_mod_cast Nat.zero_le _

lemma fmod_eq_of (a b r : ℚ) (k : ℤ) (hb : 0 < b) (ha : a = b * k + r)
    (h0 : 0 ≤ r) (hr : r < b) : fmod a b = r := by
  have h1 : (k : ℚ) ≤ a / b := by
    rw [ha, le_div_iff₀ hb]; nlinarith
  have h2 : a / b < k + 1 := by
    rw [ha, div_lt_iff₀ hb]; nlinarith
  have hk : ⌊a / b⌋ = k := Int.floor_eq_iff.mpr ⟨h1, h2⟩
  unfold fmod
  rw [hk, ha]
  ring

/- ### Claim theorems -/

/-- Claim C1: the claim states `next s = ((s * 65521) ^^^ TWIST[s &&& 3]) % 2^16`
with the result in 0..65535.  The source applies no 16-bit mask, so at
seed 2 the code returns 117083, while the claimed masked value is 51547
and the claimed range bound 65535 is exceeded. -/
theorem spec_c1_next_unmasked :
    next 2 = 117083 ∧
    ((2 * 65521) ^^^ TWIST.getD (2 &&& 0x3) 0) % 65536 = 51547 ∧
    65535 < next 2 ∧
    next 2 ≠ ((2 * 65521) ^^^ TWIST.getD (2 &&& 0x3) 0) % 65536 := by
  decide

/-- Claim C2: the claim states that Hard extracts hue as
`(s &&& 0x7f00) >>> 8` and saturation as `(s &&& 0xf0) >>> 4`.  The
source instead computes `s &&& (0x7f00 >>> 8)` and `s &&& (0xf0 >>> 4)`,
i.e. masks the unshifted seed with the shifted constant.  At seed
0x7FF0 the code yields (270, 0, 0), while the claimed hue formula gives
2835/8 = 354.375 and the claimed saturation formula gives 375/4 = 93.75. -/
theorem spec_c2_hard_masks :
    makeHSVHard 0x7FF0 = (270, 0, 0) ∧
    fmod ((360 / 64) * ((((0x7FF0 &&& 0x7f00) >>> 8 : ℕ)) : ℚ)) 360 = 2835 / 8 ∧
    (100 / 16 : ℚ) * (((0x7FF0 &&& 0xf0) >>> 4 : ℕ) : ℚ) = 375 / 4 := by
  have h1 : (0x7FF0 &&& (0x7f00 >>> 8) : ℕ) = 112 := by decide
  have h2 : (0x7FF0 &&& (0xf0 >>> 4) : ℕ) = 0 := by decide
  have h3 : (0x7FF0 &&& 0xf : ℕ) = 0 := by decide
  have h4 : ((0x7FF0 &&& 0x7f00) >>> 8 : ℕ) = 127 := by decide
  have h5 : ((0x7FF0 &&& 0xf0) >>> 4 : ℕ) = 15 := by decide
  have hf : fmod (630 : ℚ) 360 = 270 :=
    fmod_eq_of _ _ _ 1 (by norm_num) (by norm_num) (by norm_num) (by norm_num)
  have hg : fmod ((5715 : ℚ) / 8) 360 = 2835 / 8 :=
    fmod_eq_of _ _ _ 1 (by norm_num) (by norm_num) (by norm_num) (by norm_num)
  refine ⟨?_, ?_, ?_⟩
  · simp only [makeHSVHard, h1, h2, h3]
    norm_num [Prod.ext_iff, hf]
  · rw [h4]
    norm_num [hg]
  · rw [h5]
    norm_num

/-- Claim C3: the claim states that Hard at seed 0x7F0F yields hue
354.375 and saturation 0 (triple (2835/8, 375/4, 0) in the returned
order hue, value, saturation).  With the source's misplaced masks the
hue field is `0x7F0F &&& 0x7f = 15` and the saturation field is
`0x7F0F &&& 0xf = 15`, so the code returns (675/8, 375/4, 375/4), i.e.
hue 84.375 and saturation 93.75. -/
theorem spec_c3_hard_fixed_point :
    makeHSVHard 0x7F0F = (675 / 8, 375 / 4, 375 / 4) ∧
    makeHSVHard 0x7F0F ≠ (2835 / 8, 375 / 4, 0) := by
  have h1 : (0x7F0F &&& (0x7f00 >>> 8) : ℕ) = 15 := by decide
  have h2 : (0x7F0F &&& (0xf0 >>> 4) : ℕ) = 15 := by decide
  have h3 : (0x7F0F &&& 0xf : ℕ) = 15 := by decide
  have hf : fmod ((675 : ℚ) / 8) 360 = 675 / 8 :=
    fmod_eq_of _ _ _ 0 (by norm_num) (by norm_num) (by norm_num) (by norm_num)
  have he : makeHSVHard 0x7F0F = (675 / 8, 375 / 4, 375 / 4) := by
    simp only [makeHSVHard, h1, h2, h3]
    norm_num [Prod.ext_iff, hf]
  refine ⟨he, ?_⟩
  rw [he]
  intro hcontra
  have := congrArg (fun t : ℚ × ℚ × ℚ => t.1) hcontra
  norm_num at this

/-- Claim C4: for every difficulty and every 16-bit seed, the derived
triple has hue in [0, 360), and both remaining components (the stored
value and saturation) in [0, 100]; nothing is negative and the modulo
reduction wraps the hue below 360. -/
theorem spec_c4_ranges (d : GuesserDifficulty) (s : ℕ) (hs : s ≤ 0xffff) :
    0 ≤ (makeHSV d s).1 ∧ (makeHSV d s).1 < 360 ∧
    0 ≤ (makeHSV d s).2.1 ∧ (makeHSV d s).2.1 ≤ 100 ∧
    0 ≤ (makeHSV d s).2.2 ∧ (makeHSV d s).2.2 ≤ 100 := by
  have h8 : (0xff00 >>> 8 : ℕ) = 255 := rfl
  have h7 : (0x7f00 >>> 8 : ℕ) = 127 := rfl
  have h4 : (0xf0 >>> 4 : ℕ) = 15 := rfl
  have m255 := cast_and_le s 255
  have m127 := cast_and_le s 127
  have m15 := cast_and_le s 15
  have n255 := cast_and_nonneg s 255
  have n127 := cast_and_nonneg s 127
  have n15 := cast_and_nonneg s 15
  push_cast at m255 m127 m15
  cases d
  case Easy =>
    simp only [makeHSV, makeHSVEasy, h8, h4]
    refine ⟨fmod_nonneg _ (by norm_num), fmod_lt _ (by norm_num),
      ?_, ?_, ?_, ?_⟩ <;> norm_num <;> linarith
  case Medium =>
    simp only [makeHSV, makeHSVMedium, h8, h4]
    refine ⟨fmod_nonneg _ (by norm_num), fmod_lt _ (by norm_num),
      ?_, ?_, ?_, ?_⟩ <;> norm_num <;> linarith
  case Hard =>
    simp only [makeHSV, makeHSVHard, h7, h4]
    refine ⟨fmod_nonneg _ (by norm_num), fmod_lt _ (by norm_num),
      ?_, ?_, ?_, ?_⟩ <;> norm_num <;> linarith

/-- Witness for C4 at difficulty Hard and seed 0. -/
theorem spec_c4_ranges_witness :
    (0 : ℕ) ≤ 0xffff ∧
    (0 ≤ (makeHSV .Hard 0).1 ∧ (makeHSV .Hard 0).1 < 360 ∧
      0 ≤ (makeHSV .Hard 0).2.1 ∧ (makeHSV .Hard 0).2.1 ≤ 100 ∧
      0 ≤ (makeHSV .Hard 0).2.2 ∧ (makeHSV .Hard 0).2.2 ≤ 100) :=
  ⟨by decide, spec_c4_ranges .Hard 0 (by decide)⟩

lemma step_counter_bounds (st : GuesserSession × GuesserRound) (ev : AppEvent) :
    st.1.guessed ≤ (step st ev).1.guessed ∧
    (step st ev).1.guessed ≤ st.1.guessed + 1 ∧
    st.1.score ≤ (step st ev).1.score ∧
    (step st ev).1.score ≤ st.1.score + 1 := by
  cases ev with
  | check h s v =>
    simp only [step, doCheck]
    split_ifs <;> refine ⟨by omega, by omega, by omega, by omega⟩
  | nextRound =>
    simp only [step]
    exact ⟨le_refl _, by omega, le_refl _, by omega⟩

lemma step_preserves_inv (st : GuesserSession × GuesserRound) (ev : AppEvent)
    (h : st.1.score ≤ st.1.guessed ∧ 0 ≤ st.1.score ∧ 0 ≤ st.1.guessed) :
    (step st ev).1.score ≤ (step st ev).1.guessed ∧
    0 ≤ (step st ev).1.score ∧ 0 ≤ (step st ev).1.guessed := by
  cases ev with
  | check hg sg vg =>
    simp only [step, doCheck]
    split_ifs <;> refine ⟨by omega, by omega, by omega⟩
  | nextRound =>
    exact h

lemma foldl_preserves (P : GuesserSession × GuesserRound → Prop)
    (hstep : ∀ st ev, P st → P (step st ev)) :
    ∀ (evs : List AppEvent) (st : GuesserSession × GuesserRound),
      P st → P (evs.foldl step st) := by
  intro evs
  induction evs with
  | nil => intro st h; exact h
  | cons e es ih => intro st h; exact ih (step st e) (hstep st e h)

/-- Claim C5: in every state reachable from the initial session by any
sequence of guess-checks and round-advances, score ≤ guessedCount and
both counters are non-negative; moreover from any reachable state each
operation never decreases either counter and increases each by at most
one. -/
theorem spec_c5_session_invariant (now : ℕ) (evs : List AppEvent) :
    (runEvents now evs).1.score ≤ (runEvents now evs).1.guessed ∧
    0 ≤ (runEvents now evs).1.score ∧
    0 ≤ (runEvents now evs).1.guessed ∧
    ∀ ev : AppEvent,
      (runEvents now evs).1.guessed ≤ (step (runEvents now evs) ev).1.guessed ∧
      (step (runEvents now evs) ev).1.guessed ≤ (runEvents now evs).1.guessed + 1 ∧
      (runEvents now evs).1.score ≤ (step (runEvents now evs) ev).1.score ∧
      (step (runEvents now evs) ev).1.score ≤ (runEvents now evs).1.score + 1 := by
  have hinit : (initState now).1.score ≤ (initState now).1.guessed ∧
      0 ≤ (initState now).1.score ∧ 0 ≤ (initState now).1.guessed := by
    refine ⟨le_refl 0, le_refl 0, le_refl 0⟩
  have hinv := foldl_preserves
    (fun st => st.1.score ≤ st.1.guessed ∧ 0 ≤ st.1.score ∧ 0 ≤ st.1.guessed)
    step_preserves_inv evs (initState now) hinit
  exact ⟨hinv.1, hinv.2.1, hinv.2.2,
    fun ev => step_counter_bounds (runEvents now evs) ev⟩

/-- Claim C6: `doCheck` increments `guessed` by exactly one, and
increments `score` by exactly one precisely when the guessed hue,
saturation and value all equal the round's target; otherwise `score` is
unchanged, and in every case it grows by at most one. -/
theorem spec_c6_check_scoring (session : GuesserSession) (round : GuesserRound)
    (h s v : ℚ) :
    (doCheck session round h s v).1.guessed = session.guessed + 1 ∧
    ((doCheck session round h s v).1.score = session.score + 1 ↔
      (h = round.hue ∧ s = round.saturation ∧ v = round.value)) ∧
    (¬(h = round.hue ∧ s = round.saturation ∧ v = round.value) →
      (doCheck session round h s v).1.score = session.score) ∧
    (doCheck session round h s v).1.score ≤ session.score + 1 := by
  have hg : (doCheck session round h s v).1.guessed = session.guessed + 1 := rfl
  have hsc : (doCheck session round h s v).1.score = session.score +
      (if h = round.hue ∧ s = round.saturation ∧ v = round.value
        then 1 else 0) := rfl
  refine ⟨hg, ?_, ?_, ?_⟩
  · rw [hsc]
    split_ifs with hc
    · exact ⟨fun _ => hc, fun _ => rfl⟩
    · exact ⟨fun habs => by omega, fun hcc => absurd hcc hc⟩
  · intro hn
    rw [hsc, if_neg hn]
    omega
  · rw [hsc]
    split_ifs <;> omega

/-- Claim C7: `doCheck` sets the round's `checking` flag and leaves the
target hue, saturation, value and the carried seed unchanged. -/
theorem spec_c7_check_frame (session : GuesserSession) (round : GuesserRound)
    (h s v : ℚ) :
    (doCheck session round h s v).2.checking = true ∧
    (doCheck session round h s v).2.hue = round.hue ∧
    (doCheck session round h s v).2.saturation = round.saturation ∧
    (doCheck session round h s v).2.value = round.value ∧
    (doCheck session round h s v).2.seed = round.seed :=
  ⟨rfl, rfl, rfl, rfl, rfl⟩

/-- Claim C8: `makeRound d s` has target `makeHSV d s` componentwise
(in the destructured order hue, saturation, value), carried seed
`next s`, and `checking = false`; consequently `doNext` produces a round
whose target is `makeHSV session.difficulty round.seed` for the old
round's carried seed. -/
theorem spec_c8_round_construction (d : GuesserDifficulty) (s : ℕ)
    (session : GuesserSession) (round : GuesserRound) :
    (makeRound d s).hue = (makeHSV d s).1 ∧
    (makeRound d s).saturation = (makeHSV d s).2.1 ∧
    (makeRound d s).value = (makeHSV d s).2.2 ∧
    (makeRound d s).seed = next s ∧
    (makeRound d s).checking = false ∧
    (doNext session round).hue = (makeHSV session.difficulty round.seed).1 ∧
    (doNext session round).saturation = (makeHSV session.difficulty round.seed).2.1 ∧
    (doNext session round).value = (makeHSV session.difficulty round.seed).2.2 ∧
    (doNext session round).seed = next round.seed :=
  ⟨rfl, rfl, rfl, rfl, rfl, rfl, rfl, rfl, rfl⟩

/-- Claim C9: a next-round step leaves the session untouched — seed,
difficulty, guessed count and score included — and only replaces the
round, the new one being built from the old round's carried seed. -/
theorem spec_c9_next_frame (st : GuesserSession × GuesserRound) :
    (step st .nextRound).1.seed = st.1.seed ∧
    (step st .nextRound).1.difficulty = st.1.difficulty ∧
    (step st .nextRound).1.guessed = st.1.guessed ∧
    (step st .nextRound).1.score = st.1.score ∧
    (step st .nextRound).1 = st.1 ∧
    (step st .nextRound).2 = makeRound st.1.difficulty st.2.seed :=
  ⟨rfl, rfl, rfl, rfl, rfl, rfl⟩

/-- Claim C10: for every difficulty and 16-bit seed the second and
third components of the `makeHSV` triple coincide (both are scaled from
the low nibble of the unshifted seed), hence every round's stored
saturation equals its stored value. -/
theorem spec_c10_sat_eq_val (d : GuesserDifficulty) (s : ℕ) (hs : s ≤ 0xffff) :
    (makeHSV d s).2.1 = (makeHSV d s).2.2 ∧
    (makeRound d s).saturation = (makeRound d s).value := by
  have h4 : (0xf0 >>> 4 : ℕ) = 0xf := rfl
  have hm : (makeHSV d s).2.1 = (makeHSV d s).2.2 := by
    cases d <;>
      simp only [makeHSV, makeHSVEasy, makeHSVMedium, makeHSVHard, h4] <;>
      push_cast <;> ring
  exact ⟨hm, hm⟩

/-- Witness for C10 at difficulty Medium and seed 0x1234. -/
theorem spec_c10_sat_eq_val_witness :
    (0x1234 : ℕ) ≤ 0xffff ∧
    ((makeHSV .Medium 0x1234).2.1 = (makeHSV .Medium 0x1234).2.2 ∧
      (makeRound .Medium 0x1234).saturation = (makeRound .Medium 0x1234).value) :=
  ⟨by decide, spec_c10_sat_eq_val .Medium 0x1234 (by decide)⟩

end Clrgsr
